import Mathlib

/-!
Verification development for the SMART-PREDICTOR-FOR-CLOUD anomaly-detection
pipeline.  The Python sources under `src/` are shallowly embedded: Python
floats are modelled as exact rationals (`ℚ`), dictionaries of numeric
features as association lists with last-binding-wins lookup (matching
`dict.update` overwrite semantics), and stateful methods as explicit
state-passing functions.  Numpy operations whose exact value no property
depends on and which are not rational-valued (`np.std`, `np.corrcoef`) are
taken as function parameters; every rational-valued numpy helper
(`np.mean`, `np.percentile`, `np.polyfit` degree-1 slope, `np.min`,
`np.max`) is implemented exactly.
-/

/-- A Python feature dictionary with numeric values: association list of
key/value pairs.  `dict.update` appends bindings; a later binding for the
same key overwrites an earlier one, so lookup takes the last binding. -/
abbrev Features := List (String × ℚ)

/-- Dictionary lookup `fs.get(k, d)`: value of the last binding of `k`,
or the default `d` when `k` is absent. -/
def dget (fs : Features) (k : String) (d : ℚ) : ℚ :=
  match fs.reverse.lookup k with
  | some v => v
  | none => d

/-- Dictionary membership `k in fs`. -/
def dmem (fs : Features) (k : String) : Bool :=
  (fs.reverse.lookup k).isSome

/-- `np.mean` of a list of rationals (all call sites guard non-emptiness). -/
def mean (xs : List ℚ) : ℚ := xs.sum / xs.length

/-- `np.min` with default for the empty list (all call sites guard non-emptiness). -/
def listMin (xs : List ℚ) : ℚ :=
  match xs with
  | [] => 0
  | y :: ys => ys.foldl min y

/-- `np.max` with default for the empty list (all call sites guard non-emptiness). -/
def listMax (xs : List ℚ) : ℚ :=
  match xs with
  | [] => 0
  | y :: ys => ys.foldl max y

/-- Python 3 `round(x)` at integer precision: round half to even
(banker's rounding), as documented for the built-in `round`.  Away from
ties the nearest integer is `⌊x + 1/2⌋`. -/
def roundHalfEven (x : ℚ) : ℤ :=
  if x - ⌊x⌋ = 1/2 then (if 2 ∣ ⌊x⌋ then ⌊x⌋ else ⌊x⌋ + 1) else ⌊x + 1/2⌋

/-- Python `round(x, 2)`: round to two decimal places, half to even. -/
def pyRound2 (x : ℚ) : ℚ := (roundHalfEven (x * 100) : ℚ) / 100

/-- The slope returned by `np.polyfit(range(len(ys)), ys, 1)[0]`:
least-squares linear-fit slope over x-coordinates `0, 1, …, n-1`. -/
def polyfitSlope (ys : List ℚ) : ℚ :=
  let n : ℚ := ys.length
  let xs : List ℚ := (List.range ys.length).map (fun i => (i : ℚ))
  let sx := xs.sum
  let sy := ys.sum
  let sxy := ((xs.zip ys).map (fun p => p.1 * p.2)).sum
  let sxx := (xs.map (fun x => x * x)).sum
  let d := n * sxx - sx * sx
  if d = 0 then 0 else (n * sxy - sx * sy) / d

/-- Insert into a `≤`-sorted list of rationals. -/
def insertLE (x : ℚ) : List ℚ → List ℚ
  | [] => [x]
  | y :: ys => if x ≤ y then x :: y :: ys else y :: insertLE x ys

/-- Insertion sort for rationals (the sort underlying `np.percentile`). -/
def sortQ : List ℚ → List ℚ
  | [] => []
  | x :: xs => insertLE x (sortQ xs)

/-- `np.percentile(xs, q)` with the default linear interpolation:
position `h = (n-1)·q/100` in the sorted data, linearly interpolated
between the neighbouring order statistics. -/
def percentile (xs : List ℚ) (q : ℚ) : ℚ :=
  let s := sortQ xs
  if s.isEmpty then 0
  else
    let h : ℚ := ((s.length : ℚ) - 1) * q / 100
    let i : ℕ := (⌊h⌋).toNat
    let lo := s.getD i 0
    let hi := s.getD (i + 1) lo
    lo + (h - ⌊h⌋) * (hi - lo)

/- ======================== RiskScorer (src/src/ml/risk_scorer.py) ======================== -/

/-- One entry of `RiskScorer.prediction_history` as appended by
`_store_prediction`: ISO timestamp, the clamped (unrounded) risk score,
and the feature record. -/
structure PredictionEntry where
  timestamp : String
  risk_score : ℚ
  features : Features
deriving DecidableEq

/-- `RiskScorer._normalize_anomaly_score`: negative (anomalous) scores map
to `min(100, 50 + |s|·50)`, non-negative to `max(0, 50 - s·50)`. -/
def normalize_anomaly_score (anomaly_score : ℚ) : ℚ :=
  if anomaly_score < 0 then min 100 (50 + |anomaly_score| * 50)
  else max 0 (50 - anomaly_score * 50)

/-- `RiskScorer._calculate_system_stress_score`: mean of the CPU, memory
and disk bracket scores together with `system_stress_score × 100`. -/
def calculate_system_stress_score (features : Features) : ℚ :=
  let cpu_current := dget features "cpu_current" 0
  let c : ℚ :=
    if cpu_current > 90 then 100 else if cpu_current > 80 then 75
    else if cpu_current > 70 then 50 else if cpu_current > 50 then 25 else 0
  let memory_current := dget features "memory_current" 0
  let m : ℚ :=
    if memory_current > 95 then 100 else if memory_current > 85 then 75
    else if memory_current > 75 then 50 else if memory_current > 60 then 25 else 0
  let disk_current := dget features "disk_current" 0
  let d : ℚ :=
    if disk_current > 95 then 100 else if disk_current > 85 then 75
    else if disk_current > 75 then 50 else 0
  let system_stress := dget features "system_stress_score" 0
  mean [c, m, d, system_stress * 100]

/-- `RiskScorer._calculate_error_rate_score` as it actually executes.  The
source declares the method as `def _calculate_error_rate_score(self, float)`:
the feature dictionary argument is bound to a parameter named `float`, and
the body reads the unbound name `features`, raising `NameError` on its very
first statement.  The surrounding `except Exception` handler catches it and
returns `0.0`, so the method returns `0.0` for every input. -/
def calculate_error_rate_score (features : Features) : ℚ := 0

/-- `RiskScorer._calculate_error_rate_score` as the body reads if its
dictionary parameter were correctly named `features` (the evident intent of
lines 145-186 of `risk_scorer.py`): base bracket on `log_error_ratio`, plus
additive spike and diversity penalties, capped at 100. -/
def calculate_error_rate_score_intended (features : Features) : ℚ :=
  let log_error_ratio := dget features "log_error_ratio" 0
  let error_spike := dget features "recent_error_spike" 1
  let error_types := dget features "error_types_count" 0
  let base : ℚ :=
    if log_error_ratio > 0.2 then 80 else if log_error_ratio > 0.1 then 60
    else if log_error_ratio > 0.05 then 40 else if log_error_ratio > 0.01 then 20 else 0
  let spike : ℚ :=
    if error_spike > 5 then 40 else if error_spike > 3 then 25
    else if error_spike > 2 then 15 else 0
  let diversity : ℚ :=
    if error_types > 5 then 20 else if error_types > 3 then 10
    else if error_types > 1 then 5 else 0
  min 100 (base + spike + diversity)

/-- `RiskScorer._calculate_performance_score`: additive response-time and
slow-request bracket contributions, capped at 100. -/
def calculate_performance_score (features : Features) : ℚ :=
  let response_time_current := dget features "response_time_current" 0
  let response_time_p95 := dget features "response_time_p95" 0
  let log_response_time_p95 := dget features "log_response_time_p95" 0
  let slow_requests := dget features "slow_requests_ratio" 0
  let a : ℚ :=
    if response_time_current > 5000 then 80 else if response_time_current > 2000 then 60
    else if response_time_current > 1000 then 40 else if response_time_current > 500 then 20 else 0
  let b : ℚ :=
    if response_time_p95 > 3000 then 60 else if response_time_p95 > 1500 then 40
    else if response_time_p95 > 800 then 20 else 0
  let c : ℚ :=
    if log_response_time_p95 > 2000 then 40 else if log_response_time_p95 > 1000 then 25
    else if log_response_time_p95 > 500 then 10 else 0
  let d : ℚ :=
    if slow_requests > 0.2 then 50 else if slow_requests > 0.1 then 30
    else if slow_requests > 0.05 then 15 else 0
  min 100 (a + b + c + d)

/-- `RiskScorer._apply_severity_multipliers`: a running multiplier starts
at 1 and each triggered condition multiplies into it, in source order. -/
def apply_severity_multipliers (risk_score : ℚ) (features : Features) : ℚ :=
  let multiplier : ℚ := 1
  let multiplier :=
    if dget features "cpu_current" 0 > 95 ∨ dget features "memory_current" 0 > 98
    then multiplier * 1.5 else multiplier
  let multiplier :=
    if dget features "log_pattern_connection_ratio" 0 > 0.1
    then multiplier * 1.3 else multiplier
  let multiplier :=
    if dget features "log_pattern_database_ratio" 0 > 0.05
    then multiplier * 1.3 else multiplier
  risk_score * multiplier

/-- `RiskScorer._apply_temporal_context`.  `hour` is `datetime.now().hour`,
an input read from the wall clock at call time. -/
def apply_temporal_context (hour : ℕ) (prediction_history : List PredictionEntry)
    (risk_score : ℚ) : ℚ :=
  let recent_predictions := prediction_history.drop (prediction_history.length - 10)
  let r1 : ℚ :=
    if 3 ≤ recent_predictions.length then
      let recent_scores := recent_predictions.map (fun p => p.risk_score)
      let r0 : ℚ :=
        if 3 ≤ recent_scores.length then
          let trend := polyfitSlope recent_scores
          if trend > 5 then risk_score * 1.2
          else if trend < -5 then risk_score * 0.9
          else risk_score
        else risk_score
      if mean (recent_scores.drop (recent_scores.length - 3)) > 60 then r0 * 1.1 else r0
    else risk_score
  if 2 ≤ hour ∧ hour ≤ 5 then r1 * 1.1
  else if 9 ≤ hour ∧ hour ≤ 17 then r1 * 1.05
  else r1

/-- `RiskScorer._store_prediction`: append the (unrounded) score with its
timestamp and features, trimming the history to the last 1000 entries. -/
def store_prediction (ts : String) (risk_score : ℚ) (features : Features)
    (prediction_history : List PredictionEntry) : List PredictionEntry :=
  let h := prediction_history ++ [⟨ts, risk_score, features⟩]
  if 1000 < h.length then h.drop (h.length - 1000) else h

/-- `RiskScorer.calculate_risk_score`.  `fail` selects the method's
internal-failure path (`except Exception: return 0.0`); `hour` is the
wall-clock hour read by `_apply_temporal_context` and `ts` the timestamp
string stored by `_store_prediction`.  Returns the rounded score together
with the updated `prediction_history`; the stored score is the clamped
value before rounding, exactly as in the source. -/
def calculate_risk_score (fail : Bool) (hour : ℕ) (ts : String) (anomaly_score : ℚ)
    (features : Features) (prediction_history : List PredictionEntry) :
    ℚ × List PredictionEntry :=
  if fail then (0, prediction_history)
  else
    let normalized := normalize_anomaly_score anomaly_score
    let stress := calculate_system_stress_score features
    let err := calculate_error_rate_score features
    let perf := calculate_performance_score features
    let weighted := normalized * 0.4 + stress * 0.25 + err * 0.2 + perf * 0.15
    let withSeverity := apply_severity_multipliers weighted features
    let withTemporal := apply_temporal_context hour prediction_history withSeverity
    let clamped := max 0 (min 100 withTemporal)
    (pyRound2 clamped, store_prediction ts clamped features prediction_history)

/-- `RiskScorer.get_risk_level`: classify against the configured
thresholds `high_risk = (71, 100)`, `medium_risk = (31, 70)`. -/
def get_risk_level (risk_score : ℚ) : String :=
  if risk_score ≥ 71 then "HIGH"
  else if risk_score ≥ 31 then "MEDIUM"
  else "LOW"

/- ======================== AlertManager (src/src/ml/alert_manager.py) ======================== -/

/-- `AlertManager` mutable state: the per-level cooldown table
`alert_config['alert_cooldown']` (a dict, modelled as a total map to
`Option` timestamp) and `alert_config['incident_counter']`. -/
structure AlertState where
  cooldown : String → Option ℚ
  incident_counter : ℕ

/-- The alert record built by `_create_alert`, restricted to the fields the
control flow depends on; the human-readable payload (description text,
formatted responsible-metric strings, recommendation strings) is presentation
only and is dispatched to external sinks. -/
structure Alert where
  risk_level : String
  risk_score : ℚ
  incident_id : ℕ
deriving DecidableEq

/-- `AlertManager._determine_risk_level`: literal thresholds 71 and 31. -/
def determine_risk_level (risk_score : ℚ) : String :=
  if risk_score ≥ 71 then "HIGH"
  else if risk_score ≥ 31 then "MEDIUM"
  else "LOW"

/-- `AlertManager._is_in_cooldown`: in cooldown iff a last-alert timestamp
exists for the level and `now - last < min_alert_interval`. -/
def is_in_cooldown (min_alert_interval now : ℚ) (st : AlertState) (risk_level : String) : Bool :=
  match st.cooldown risk_level with
  | none => false
  | some t => decide (now - t < min_alert_interval)

/-- `AlertManager._update_cooldown`: set the level's last-alert time to now. -/
def update_cooldown (now : ℚ) (st : AlertState) (risk_level : String) : AlertState :=
  { st with cooldown := fun l => if l = risk_level then some now else st.cooldown l }

/-- `AlertManager.send_alert`: determine the level; if in cooldown return
with no state change; otherwise build the alert (incrementing the incident
counter inside `_create_alert`), dispatch it to the console/SNS/CloudWatch
sinks (external I/O), and update the level's cooldown timestamp.  Returns
the dispatched alert, if any, with the new state. -/
def send_alert (min_alert_interval now risk_score : ℚ) (features : Features)
    (st : AlertState) : Option Alert × AlertState :=
  let risk_level := determine_risk_level risk_score
  if is_in_cooldown min_alert_interval now st risk_level then (none, st)
  else
    let st1 : AlertState := { st with incident_counter := st.incident_counter + 1 }
    let alert : Alert :=
      { risk_level := risk_level, risk_score := risk_score, incident_id := st1.incident_counter }
    (some alert, update_cooldown now st1 risk_level)

/- ============= OptimizedAnomalyDetector (src/src/ml/optimized_anomaly_detector.py) ============= -/

/-- `np.nan_to_num(X, nan=0.0, posinf=1.0, neginf=-1.0)`: the identity on
the rational model, where NaN and ±inf are not representable. -/
def nan_to_num (X : List (List ℚ)) : List (List ℚ) := X

/-- `OptimizedAnomalyDetector` ML state.  The fitted `IsolationForest` and
fitted `StandardScaler` are deterministic functions of the matrix they were
fit on (given the fixed config seed), so each is modelled by that matrix;
`none` is the unfitted object. -/
structure DetectorState where
  model : Option (List (List ℚ))
  scaler : Option (List (List ℚ))
  is_trained : Bool
  training_data : List (List ℚ)
deriving DecidableEq

/-- The feature-vector projection used by `_add_to_training_data` and
`_predict_anomaly`: the enabled features, truncated to `feature_limit`,
looked up with default `0.0`. -/
def feature_vector (enabled_features : List String) (feature_limit : ℕ)
    (features : Features) : List ℚ :=
  (enabled_features.take feature_limit).map (fun k => dget features k 0)

/-- `OptimizedAnomalyDetector._add_to_training_data`: append the projected
vector, then trim via `training_data[-max_training_samples//2:]` when the
length exceeds `max_training_samples`.  In Python, unary minus binds
tighter than `//`, so `-m//2 = (-m)//2 = -⌈m/2⌉`; the slice therefore
keeps the last `⌈m/2⌉` entries for `m > 0`, and the whole list for
`m = 0` (slice `[0:]`). -/
def add_to_training_data (max_training_samples : ℕ) (enabled_features : List String)
    (feature_limit : ℕ) (training_data : List (List ℚ)) (features : Features) :
    List (List ℚ) :=
  let td := training_data ++ [feature_vector enabled_features feature_limit features]
  if max_training_samples < td.length then
    if max_training_samples = 0 then td
    else td.drop (td.length - (max_training_samples + 1) / 2)
  else td

/-- `OptimizedAnomalyDetector._train_model`: under the training lock, fail
with no state change when fewer than `min_samples` samples are buffered;
otherwise sanitize, fit scaler and model on the sanitized matrix, set
`is_trained`, and trim the buffer to its last 100 samples. -/
def train_model (min_samples : ℕ) (s : DetectorState) : Bool × DetectorState :=
  if s.training_data.length < min_samples then (false, s)
  else
    let X := nan_to_num s.training_data
    (true,
      { model := some X
        scaler := some X
        is_trained := true
        training_data := s.training_data.drop (s.training_data.length - 100) })

/- ======================== FeatureExtractor (src/src/ml/feature_extractor.py) ======================== -/

/-- The `network_io` metric entry: nested dict with byte-count series
(the `isinstance(…, list)` check is modelled by the fields being lists). -/
structure NetworkIOData where
  bytes_sent : Option (List ℚ)
  bytes_received : Option (List ℚ)
deriving DecidableEq

/-- The metrics window passed to `extract_features`: a dict from source
metric names to value series.  An absent key is `none`.  Unrecognized keys,
which no branch of the extractor reads, are not modelled, so the Python
emptiness test `if not metrics` is all-fields-`none`. -/
structure MetricsWindow where
  cpu_utilization : Option (List ℚ)
  memory_utilization : Option (List ℚ)
  disk_utilization : Option (List ℚ)
  network_io : Option NetworkIOData
  request_count : Option (List ℚ)
  response_time : Option (List ℚ)
  error_rate : Option (List ℚ)
deriving DecidableEq

/-- `if not metrics:` for the modelled metrics dict. -/
def MetricsWindow.isEmpty (m : MetricsWindow) : Bool :=
  m.cpu_utilization.isNone && m.memory_utilization.isNone && m.disk_utilization.isNone
    && m.network_io.isNone && m.request_count.isNone && m.response_time.isNone
    && m.error_rate.isNone

/-- One log entry of the log window; `none` models an absent dict key. -/
structure LogEntry where
  timestamp : Option String
  level : Option String
  message : Option String
  response_time_ms : Option ℚ
  error_type : Option String
deriving DecidableEq

/-- `list[-1] if list else 0` — the last element with default 0. -/
def lastD (xs : List ℚ) : ℚ := xs.getLastD 0

/-- Insert into a `<`-sorted list of strings (code-point lexicographic,
matching Python `sorted` on `str`). -/
def insertStr (x : String) : List String → List String
  | [] => [x]
  | y :: ys => if y < x then y :: insertStr x ys else x :: y :: ys

/-- Sort a list of strings, as Python `sorted`. -/
def sortStr : List String → List String
  | [] => []
  | x :: xs => insertStr x (sortStr xs)

/-- `FeatureExtractor._calculate_trend`: `np.polyfit` degree-1 slope, with
0 for fewer than two points. -/
def calculate_trend (data : List ℚ) : ℚ :=
  if data.length < 2 then 0 else polyfitSlope data

/-- `FeatureExtractor._extract_time_series_features`: statistics,
percentiles, and (for ten or more points) the recent/historical
comparison, for one metric series under the key prefix `pfx`. -/
def extract_time_series_features (std : List ℚ → ℚ) (data : List ℚ) (pfx : String) :
    Features :=
  if data.isEmpty then []
  else
    [(pfx ++ "_mean", mean data), (pfx ++ "_std", std data),
     (pfx ++ "_min", listMin data), (pfx ++ "_max", listMax data),
     (pfx ++ "_p50", percentile data 50), (pfx ++ "_p90", percentile data 90),
     (pfx ++ "_p95", percentile data 95), (pfx ++ "_p99", percentile data 99)]
    ++ (if 10 ≤ data.length then
          let recent_avg := mean (data.drop (data.length - 5))
          let historical_avg := mean (data.take (data.length - 5))
          [(pfx ++ "_recent_avg", recent_avg),
           (pfx ++ "_historical_avg", historical_avg),
           (pfx ++ "_trend_ratio", recent_avg / max historical_avg 1)]
        else [])

/-- `FeatureExtractor._extract_network_features`. -/
def extract_network_features (net_data : NetworkIOData) : Features :=
  match net_data.bytes_sent, net_data.bytes_received with
  | some sent, some received =>
      [("network_bytes_sent_current", lastD sent),
       ("network_bytes_received_current", lastD received)]
      ++ (if 1 < sent.length
          then [("network_bytes_sent_rate", lastD sent - sent.getD (sent.length - 2) 0)]
          else [])
      ++ (if 1 < received.length
          then [("network_bytes_received_rate",
                 lastD received - received.getD (received.length - 2) 0)]
          else [])
  | _, _ => []

/-- `FeatureExtractor._extract_request_features`. -/
def extract_request_features (req_data : List ℚ) : Features :=
  if req_data.isEmpty then []
  else
    [("requests_current", lastD req_data), ("requests_avg", mean req_data),
     ("requests_peak", listMax req_data)]
    ++ (if 5 ≤ req_data.length then
          [("requests_trend",
            mean (req_data.drop (req_data.length - 3))
              / max (mean (req_data.take (req_data.length - 3))) 1)]
        else [])

/-- `FeatureExtractor._extract_response_time_features`. -/
def extract_response_time_features (rt_data : List ℚ) : Features :=
  if rt_data.isEmpty then []
  else
    [("response_time_current", lastD rt_data), ("response_time_avg", mean rt_data),
     ("response_time_p95", percentile rt_data 95), ("response_time_max", listMax rt_data),
     ("slow_requests_ratio", ((rt_data.filter (fun rt => 1000 < rt)).length : ℚ) / rt_data.length)]

/-- `FeatureExtractor._extract_error_rate_features`. -/
def extract_error_rate_features (error_data : List ℚ) : Features :=
  if error_data.isEmpty then []
  else
    [("error_rate_current", lastD error_data), ("error_rate_avg", mean error_data),
     ("error_rate_max", listMax error_data)]
    ++ (if 3 ≤ error_data.length then
          [("error_spike_ratio",
            mean (error_data.drop (error_data.length - 3))
              / max (mean (error_data.take (error_data.length - 3))) 0.1)]
        else [])

/-- `FeatureExtractor._get_default_metric_features`. -/
def default_metric_features : Features :=
  [("cpu_current", 0), ("cpu_mean", 0), ("cpu_trend", 0),
   ("memory_current", 0), ("memory_mean", 0), ("disk_current", 0),
   ("system_stress_score", 0), ("anomaly_likelihood", 0)]

/-- `FeatureExtractor._get_default_log_features`. -/
def default_log_features : Features :=
  [("log_count_total", 0), ("log_rate_per_minute", 0), ("log_error_ratio", 0),
   ("log_warning_ratio", 0), ("log_info_ratio", 0), ("error_types_count", 0),
   ("recent_error_spike", 0)]

/-- `FeatureExtractor._extract_metric_features`: defaults for an empty
metrics dict, otherwise one block per recognized source series, in source
order.  `std` abstracts `np.std` (an irrational square root no claim
depends on). -/
def extract_metric_features (std : List ℚ → ℚ) (m : MetricsWindow) : Features :=
  if m.isEmpty then default_metric_features
  else
    (match m.cpu_utilization with
     | none => []
     | some cpu_data =>
         extract_time_series_features std cpu_data "cpu"
         ++ [("cpu_current", lastD cpu_data), ("cpu_trend", calculate_trend cpu_data),
             ("cpu_volatility", if 1 < cpu_data.length then std cpu_data else 0)])
    ++ (match m.memory_utilization with
        | none => []
        | some mem_data =>
            extract_time_series_features std mem_data "memory"
            ++ [("memory_current", lastD mem_data),
                ("memory_trend", calculate_trend mem_data)])
    ++ (match m.disk_utilization with
        | none => []
        | some disk_data =>
            extract_time_series_features std disk_data "disk"
            ++ [("disk_current", lastD disk_data)])
    ++ (match m.network_io with
        | none => []
        | some net_data => extract_network_features net_data)
    ++ (match m.request_count with
        | none => []
        | some req_data => extract_request_features req_data)
    ++ (match m.response_time with
        | none => []
        | some rt_data => extract_response_time_features rt_data)
    ++ (match m.error_rate with
        | none => []
        | some error_data => extract_error_rate_features error_data)

/-- The fixed pattern-name set of `FeatureExtractor.log_patterns`, in the
dict's insertion order. -/
def log_pattern_names : List String :=
  ["error", "warning", "timeout", "connection", "memory", "database", "slow"]

/-- `FeatureExtractor._detect_error_spike`: bucket the error logs with a
non-empty timestamp by minute (`timestamp[:16]`), compare the last
minute's count to the previous minute's, cap the ratio at 10. -/
def detect_error_spike (error_logs : List LogEntry) : ℚ :=
  if error_logs.length < 2 then 0
  else
    let minute_keys := error_logs.filterMap (fun l =>
      let ts := l.timestamp.getD ""
      if ts = "" then none else some (ts.take 16))
    let minutes := minute_keys.dedup
    if minutes.length < 2 then 0
    else
      let sorted := sortStr minutes
      let countKey := fun (k : String) => ((minute_keys.filter (fun x => x == k)).length : ℚ)
      let recent_count := countKey (sorted.getLastD "")
      let previous_count := countKey (sorted.getD (sorted.length - 2) "")
      min (recent_count / max previous_count 1) 10

/-- `FeatureExtractor._extract_log_features`: defaults for an empty log
window, otherwise volume, level ratios, pattern-match ratios, error
analysis, and log response times, in source order.  `search` abstracts
`self.log_patterns[name].search(message)` (regex matching). -/
def extract_log_features (search : String → String → Bool) (logs : List LogEntry) :
    Features :=
  if logs.isEmpty then default_log_features
  else
    let total_logs : ℚ := logs.length
    let levels := logs.map (fun l => (l.level.getD "INFO").toUpper)
    let countLevel := fun (s : String) => ((levels.filter (fun v => v == s)).length : ℚ)
    [("log_count_total", (logs.length : ℚ)),
     ("log_rate_per_minute", (logs.length : ℚ) / 5),
     ("log_error_ratio", countLevel "ERROR" / total_logs),
     ("log_warning_ratio", countLevel "WARNING" / total_logs),
     ("log_info_ratio", countLevel "INFO" / total_logs)]
    ++ log_pattern_names.map (fun pn =>
         ("log_pattern_" ++ pn ++ "_ratio",
          ((logs.filter (fun l => search pn (l.message.getD ""))).length : ℚ) / total_logs))
    ++ (let error_logs := logs.filter (fun l => l.level == some "ERROR")
        if error_logs.isEmpty then []
        else
          [("error_types_count",
            (((error_logs.map (fun l => l.error_type.getD "unknown")).dedup).length : ℚ)),
           ("recent_error_spike", detect_error_spike error_logs)])
    ++ (let response_times := logs.filterMap (fun l =>
          l.response_time_ms.bind (fun v => if v = 0 then none else some v))
        if response_times.isEmpty then
          [("log_response_time_avg", 0), ("log_response_time_p95", 0),
           ("log_response_time_max", 0)]
        else
          [("log_response_time_avg", mean response_times),
           ("log_response_time_p95", percentile response_times 95),
           ("log_response_time_max", listMax response_times)])

/-- `FeatureExtractor._extract_combined_features`.  Faithful to the
source: the function builds a fresh local `features` dict, so the
`'cpu_current' in features` / `'memory_current' in features` /
`'log_error_ratio' in features` stress checks and the anomaly-indicator
lookups consult that local dict — which can only ever contain
`cpu_error_correlation` — not the caller's accumulated record.
`corrcoef` abstracts the `np.corrcoef`-or-0 computation (irrational,
no claim depends on its value). -/
def extract_combined_features (corrcoef : List ℚ → List ℚ → ℚ) (m : MetricsWindow)
    (logs : List LogEntry) : Features :=
  let f1 : Features :=
    match m.cpu_utilization, m.error_rate with
    | some cpu_data, some error_data =>
        if 1 < cpu_data.length ∧ 1 < error_data.length then
          [("cpu_error_correlation", corrcoef cpu_data error_data)]
        else [("cpu_error_correlation", 0)]
    | _, _ => []
  let stress_factors : List ℚ :=
    (if dmem f1 "cpu_current" then [dget f1 "cpu_current" 0 / 100] else [])
    ++ (if dmem f1 "memory_current" then [dget f1 "memory_current" 0 / 100] else [])
    ++ (if dmem f1 "log_error_ratio" then [min (dget f1 "log_error_ratio" 0 * 10) 1] else [])
  let f2 := f1 ++ [("system_stress_score",
    if stress_factors.isEmpty then 0 else mean stress_factors)]
  let anomaly_indicators : List ℚ :=
    (if 80 < dget f2 "cpu_current" 0 then [1] else [])
    ++ (if 85 < dget f2 "memory_current" 0 then [1] else [])
    ++ (if (0.1 : ℚ) < dget f2 "log_error_ratio" 0 then [1] else [])
    ++ (if 1000 < dget f2 "log_response_time_p95" 0 then [1] else [])
  f2 ++ [("anomaly_likelihood",
    anomaly_indicators.sum / ((max anomaly_indicators.length 1 : ℕ) : ℚ))]

/-- `FeatureExtractor.extract_features`: metric features, then log
features, then combined features, merged by `dict.update` (concatenation
under last-binding-wins lookup).  The ISO-timestamp string field appended
at the end is not part of the numeric record modelled here. -/
def extract_features (std : List ℚ → ℚ) (corrcoef : List ℚ → List ℚ → ℚ)
    (search : String → String → Bool) (m : MetricsWindow) (logs : List LogEntry) :
    Features :=
  extract_metric_features std m ++ extract_log_features search logs
    ++ extract_combined_features corrcoef m logs

/-- Follows the spec's words (§4.1): `system_stress_score` = mean of
{cpu/100, memory/100, min(error_ratio×10, 1)} over whichever of
`cpu_current`, `memory_current`, `log_error_ratio` are available in the
extracted record. -/
def system_stress_score_spec (fs : Features) : ℚ :=
  let factors : List ℚ :=
    (if dmem fs "cpu_current" then [dget fs "cpu_current" 0 / 100] else [])
    ++ (if dmem fs "memory_current" then [dget fs "memory_current" 0 / 100] else [])
    ++ (if dmem fs "log_error_ratio" then [min (dget fs "log_error_ratio" 0 * 10) 1] else [])
  if factors.isEmpty then 0 else mean factors

/-- Concrete stand-in for the abstract `np.std` parameter, used to obtain
closed instances of the extractor. -/
def stdZero : List ℚ → ℚ := fun _ => 0

/-- Concrete stand-in for the abstract `np.corrcoef` parameter. -/
def corrZero : List ℚ → List ℚ → ℚ := fun _ _ => 0

/-- Concrete stand-in for the abstract regex-search parameter. -/
def searchNone : String → String → Bool := fun _ _ => false

/-- The empty metrics dict `{}`. -/
def emptyMetricsWindow : MetricsWindow :=
  ⟨none, none, none, none, none, none, none⟩

/-- The metrics dict `{'cpu_utilization': [60]}`. -/
def cpuOnlyMetrics : MetricsWindow :=
  ⟨some [60], none, none, none, none, none, none⟩

/-- The metrics dict `{'memory_utilization': [50]}`. -/
def memOnlyMetrics : MetricsWindow :=
  ⟨none, some [50], none, none, none, none, none⟩

/-- The feature record used to exercise the severity-multiplier step with
both customer-facing patterns triggering. -/
def both_patterns_features : Features :=
  [("log_pattern_connection_ratio", 0.2), ("log_pattern_database_ratio", 0.1)]

/- ======================== Helper lemmas ======================== -/

theorem roundHalfEven_nonneg (x : ℚ) (hx : 0 ≤ x) : 0 ≤ roundHalfEven x := by
  have hfl : (0 : ℤ) ≤ ⌊x⌋ := Int.le_floor.mpr (by exact_mod_cast hx)
  unfold roundHalfEven
  split_ifs with h1 h2
  · exact hfl
  · omega
  · exact Int.le_floor.mpr (by push_cast; linarith)

theorem roundHalfEven_le (x : ℚ) (B : ℤ) (hx : x ≤ B) : roundHalfEven x ≤ B := by
  unfold roundHalfEven
  split_ifs with h1 h2
  · have := Int.floor_le_floor hx
    simpa using this
  · have hxf : (⌊x⌋ : ℚ) = x - 1/2 := by linarith [h1]
    have : (⌊x⌋ : ℚ) < B := by rw [hxf]; linarith
    have : ⌊x⌋ < B := by exact_mod_cast this
    omega
  · have : x + 1/2 < (B + 1 : ℤ) := by push_cast; linarith
    have := Int.floor_lt.mpr this
    omega

theorem roundHalfEven_intCast (n : ℤ) : roundHalfEven (n : ℚ) = n := by
  unfold roundHalfEven
  rw [Int.floor_intCast]
  have h1 : (n : ℚ) - n = 0 := by ring
  rw [h1, if_neg (by norm_num)]
  rw [show ((n : ℚ) + 1/2) = (1/2 : ℚ) + (n : ℤ) by push_cast; ring, Int.floor_add_int]
  norm_num

theorem pyRound2_nonneg (x : ℚ) (hx : 0 ≤ x) : 0 ≤ pyRound2 x := by
  unfold pyRound2
  have h : (0 : ℤ) ≤ roundHalfEven (x * 100) :=
    roundHalfEven_nonneg _ (by positivity)
  have : (0 : ℚ) ≤ (roundHalfEven (x * 100) : ℚ) := by exact_mod_cast h
  positivity

theorem pyRound2_le_100 (x : ℚ) (hx : x ≤ 100) : pyRound2 x ≤ 100 := by
  unfold pyRound2
  have h : roundHalfEven (x * 100) ≤ (10000 : ℤ) :=
    roundHalfEven_le _ _ (by push_cast; linarith)
  have h2 : (roundHalfEven (x * 100) : ℚ) ≤ 10000 := by exact_mod_cast h
  linarith

theorem pyRound2_idem (x : ℚ) : pyRound2 (pyRound2 x) = pyRound2 x := by
  unfold pyRound2
  rw [div_mul_cancel₀ _ (by norm_num : (100 : ℚ) ≠ 0), roundHalfEven_intCast]

theorem apply_temporal_context_congr (hour : ℕ) (x : ℚ) (h1 h2 : List PredictionEntry)
    (hs : h1.map (fun p => p.risk_score) = h2.map (fun p => p.risk_score)) :
    apply_temporal_context hour h1 x = apply_temporal_context hour h2 x := by
  have hlen : h1.length = h2.length := by
    have := congrArg List.length hs; simpa using this
  have hmap : (h1.drop (h1.length - 10)).map (fun p => p.risk_score)
      = (h2.drop (h2.length - 10)).map (fun p => p.risk_score) := by
    rw [List.map_drop, List.map_drop, hs, hlen]
  have hlen2 : (h1.drop (h1.length - 10)).length = (h2.drop (h2.length - 10)).length := by
    have := congrArg List.length hmap; simpa using this
  simp only [apply_temporal_context]
  rw [hmap, hlen2]

/- ======================== C1 ======================== -/

/-- C1: `RiskScorer.calculate_risk_score` returns a value in [0, 100] that
is already rounded to two decimal places, for every anomaly score, feature
record, history, wall-clock hour, and on both the normal path and the
internal-failure (`except`) path. -/
theorem calculate_risk_score_bounded (fail : Bool) (hour : ℕ) (ts : String)
    (anomaly_score : ℚ) (features : Features) (history : List PredictionEntry) :
    0 ≤ (calculate_risk_score fail hour ts anomaly_score features history).1 ∧
    (calculate_risk_score fail hour ts anomaly_score features history).1 ≤ 100 ∧
    pyRound2 (calculate_risk_score fail hour ts anomaly_score features history).1
      = (calculate_risk_score fail hour ts anomaly_score features history).1 := by
  cases fail
  · simp only [calculate_risk_score, Bool.false_eq_true, if_false]
    refine ⟨pyRound2_nonneg _ (le_max_left _ _),
            pyRound2_le_100 _ (max_le (by norm_num) (min_le_left _ _)),
            pyRound2_idem _⟩
  · refine ⟨le_refl _, by norm_num [calculate_risk_score], ?_⟩
    have h0 : (calculate_risk_score true hour ts anomaly_score features history).1 = 0 := rfl
    rw [h0]
    unfold pyRound2
    have h1 : roundHalfEven ((0 : ℚ) * 100) = (0 : ℤ) := by
      rw [show ((0 : ℚ) * 100) = ((0 : ℤ) : ℚ) by norm_num]
      exact roundHalfEven_intCast 0
    rw [h1]; norm_num

/- ======================== C10 ======================== -/

/-- C10: `RiskScorer.get_risk_level` and `AlertManager._determine_risk_level`
agree on every score, classifying HIGH iff score ≥ 71, MEDIUM iff
31 ≤ score < 71, and LOW iff score < 31 (so negative scores are LOW and
scores above 100 are HIGH). -/
theorem risk_level_agreement (s : ℚ) :
    get_risk_level s = determine_risk_level s ∧
    (get_risk_level s = "HIGH" ↔ 71 ≤ s) ∧
    (get_risk_level s = "MEDIUM" ↔ 31 ≤ s ∧ s < 71) ∧
    (get_risk_level s = "LOW" ↔ s < 31) := by
  unfold get_risk_level determine_risk_level
  split_ifs with h1 h2 <;>
    refine ⟨rfl, ?_, ?_, ?_⟩ <;> simp_all <;> first | linarith | (intro h; linarith)

/- ======================== C2 ======================== -/

/-- C2: the error-rate sub-score the claim describes is the arithmetic of
the method body (`calculate_error_rate_score_intended`, here evaluated to
its base bracket 80 at `log_error_ratio = 0.3`), but the method as shipped
(`calculate_error_rate_score`) returns 0 for every feature record: its
dictionary parameter is misnamed `float`, the body's reads of `features`
raise `NameError`, and the `except` handler returns `0.0`. -/
theorem error_rate_score_dead_code :
    (∀ features : Features, calculate_error_rate_score features = 0) ∧
    calculate_error_rate_score_intended [("log_error_ratio", 0.3)] = 80 ∧
    calculate_error_rate_score [("log_error_ratio", 0.3)] = 0 := by
  refine ⟨fun _ => rfl, ?_, rfl⟩
  simp only [calculate_error_rate_score_intended]
  rw [show dget [("log_error_ratio", (0.3 : ℚ))] "log_error_ratio" 0 = 0.3 from rfl,
      show dget [("log_error_ratio", (0.3 : ℚ))] "recent_error_spike" 1 = 1 from rfl,
      show dget [("log_error_ratio", (0.3 : ℚ))] "error_types_count" 0 = 0 from rfl]
  norm_num

/- ======================== C3 ======================== -/

/-- C3 counterexample: with connection-pattern ratio 0.2 > 0.1 and
database-pattern ratio 0.1 > 0.05 both triggering, the severity step
multiplies the ×1.3 customer-facing factor in twice: a weighted score of
10 becomes 16.9 = 10 × 1.69, not 13 = 10 × 1.3 as the claim states. -/
theorem apply_severity_multipliers_not_once :
    apply_severity_multipliers 10 both_patterns_features ≠ 10 * 1.3 ∧
    apply_severity_multipliers 10 both_patterns_features = 10 * (1.3 * 1.3) := by
  simp only [apply_severity_multipliers]
  rw [show dget both_patterns_features "cpu_current" 0 = 0 from rfl,
      show dget both_patterns_features "memory_current" 0 = 0 from rfl,
      show dget both_patterns_features "log_pattern_connection_ratio" 0 = 0.2 from rfl,
      show dget both_patterns_features "log_pattern_database_ratio" 0 = 0.1 from rfl]
  norm_num

/-- C3 amended: when both the connection-pattern ratio (> 0.1) and the
database-pattern ratio (> 0.05) trigger, the two independent `if` blocks
each multiply the ×1.3 customer-facing factor into the running multiplier,
so the combined factor contributed by these two triggers is
1.3 × 1.3 = 1.69 (times the independent critical-system factor). -/
theorem apply_severity_multipliers_both_patterns (risk_score : ℚ) (features : Features)
    (hconn : dget features "log_pattern_connection_ratio" 0 > 0.1)
    (hdb : dget features "log_pattern_database_ratio" 0 > 0.05) :
    apply_severity_multipliers risk_score features
      = risk_score
        * ((if dget features "cpu_current" 0 > 95 ∨ dget features "memory_current" 0 > 98
            then (1.5 : ℚ) else 1) * (1.3 * 1.3)) := by
  simp only [apply_severity_multipliers, if_pos hconn, if_pos hdb]
  split_ifs <;> ring

/-- Witness for `apply_severity_multipliers_both_patterns` at a concrete
record with both pattern ratios triggering. -/
theorem apply_severity_multipliers_both_patterns_witness :
    dget both_patterns_features "log_pattern_connection_ratio" 0 > 0.1 ∧
    dget both_patterns_features "log_pattern_database_ratio" 0 > 0.05 ∧
    apply_severity_multipliers 10 both_patterns_features
      = 10
        * ((if dget both_patterns_features "cpu_current" 0 > 95
              ∨ dget both_patterns_features "memory_current" 0 > 98
            then (1.5 : ℚ) else 1) * (1.3 * 1.3)) :=
  ⟨by rw [show dget both_patterns_features "log_pattern_connection_ratio" 0 = 0.2 from rfl]
      norm_num,
   by rw [show dget both_patterns_features "log_pattern_database_ratio" 0 = 0.1 from rfl]
      norm_num,
   apply_severity_multipliers_both_patterns 10 both_patterns_features
     (by rw [show dget both_patterns_features "log_pattern_connection_ratio" 0 = 0.2 from rfl]
         norm_num)
     (by rw [show dget both_patterns_features "log_pattern_database_ratio" 0 = 0.1 from rfl]
         norm_num)⟩

/- ======================== C4 ======================== -/

/-- C4 counterexample: two calls of `RiskScorer.calculate_risk_score` with
identical anomaly score (−1), identical (empty-dict) feature record and
identical (empty) history return different scores when the wall clock read
by `_apply_temporal_context` is at hour 3 (off-peak, ×1.1 ⇒ 44.0) versus
hour 7 (no multiplier ⇒ 40.0): the score is not determined by
(anomaly_score, record, history) alone. -/
theorem calculate_risk_score_hour_dependent :
    (calculate_risk_score false 3 "t" (-1) [] []).1
      ≠ (calculate_risk_score false 7 "t" (-1) [] []).1 := by
  norm_num [calculate_risk_score, normalize_anomaly_score, calculate_system_stress_score,
    calculate_error_rate_score, calculate_performance_score, apply_severity_multipliers,
    apply_temporal_context, pyRound2, roundHalfEven, mean, dget, List.lookup]

/-- C4 amended: `calculate_risk_score` is deterministic once the wall-clock
hour is included among the inputs: for equal anomaly score, feature record,
hour, and histories whose stored risk scores agree (the stored timestamp
and feature payloads are never read by scoring), the returned score is
identical. -/
theorem calculate_risk_score_deterministic (fail : Bool) (hour : ℕ) (ts1 ts2 : String)
    (anomaly_score : ℚ) (features : Features) (h1 h2 : List PredictionEntry)
    (hs : h1.map (fun p => p.risk_score) = h2.map (fun p => p.risk_score)) :
    (calculate_risk_score fail hour ts1 anomaly_score features h1).1
      = (calculate_risk_score fail hour ts2 anomaly_score features h2).1 := by
  cases fail
  · simp only [calculate_risk_score, Bool.false_eq_true, if_false]
    rw [apply_temporal_context_congr hour _ h1 h2 hs]
  · rfl

/-- Witness for `calculate_risk_score_deterministic`: two histories equal
up to stored timestamps. -/
theorem calculate_risk_score_deterministic_witness :
    [PredictionEntry.mk "a" 50 []].map (fun p => p.risk_score)
      = [PredictionEntry.mk "b" 50 []].map (fun p => p.risk_score) ∧
    (calculate_risk_score false 3 "x" 1 [] [PredictionEntry.mk "a" 50 []]).1
      = (calculate_risk_score false 3 "y" 1 [] [PredictionEntry.mk "b" 50 []]).1 :=
  ⟨rfl, calculate_risk_score_deterministic false 3 "x" "y" 1 [] _ _ rfl⟩

/- ======================== C5 ======================== -/

/-- C5: on the metrics window `{'cpu_utilization': [60]}` with an empty log
window, the extracted record carries `cpu_current = 60` and
`log_error_ratio = 0` (both "available"), so the spec formula
(`system_stress_score_spec`) gives mean {60/100, min(0·10, 1)} = 0.3 — yet
the extractor emits `system_stress_score = 0`: `_extract_combined_features`
checks `'cpu_current' in features` against its own fresh local dict, so the
stress-factor list is always empty.  Holds for any `np.std`, `np.corrcoef`
and regex-search instantiation (shown here at the concrete stand-ins). -/
theorem extract_features_system_stress_stuck_at_zero :
    dget (extract_features stdZero corrZero searchNone cpuOnlyMetrics []) "cpu_current" 99 = 60 ∧
    dmem (extract_features stdZero corrZero searchNone cpuOnlyMetrics []) "log_error_ratio" = true ∧
    dget (extract_features stdZero corrZero searchNone cpuOnlyMetrics []) "log_error_ratio" 99 = 0 ∧
    dget (extract_features stdZero corrZero searchNone cpuOnlyMetrics []) "system_stress_score" 99 = 0 ∧
    system_stress_score_spec (extract_features stdZero corrZero searchNone cpuOnlyMetrics [])
      = 3 / 10 := by
  refine ⟨rfl, rfl, rfl, rfl, ?_⟩
  simp only [system_stress_score_spec]
  rw [show dmem (extract_features stdZero corrZero searchNone cpuOnlyMetrics []) "cpu_current"
        = true from rfl,
      show dmem (extract_features stdZero corrZero searchNone cpuOnlyMetrics []) "memory_current"
        = false from rfl,
      show dmem (extract_features stdZero corrZero searchNone cpuOnlyMetrics []) "log_error_ratio"
        = true from rfl,
      show dget (extract_features stdZero corrZero searchNone cpuOnlyMetrics []) "cpu_current" 0
        = 60 from rfl,
      show dget (extract_features stdZero corrZero searchNone cpuOnlyMetrics []) "log_error_ratio" 0
        = 0 from rfl]
  norm_num [mean, min_def]

/- ======================== C6 ======================== -/

/-- C6 counterexample: with `max_training_samples = 3`, appending to a full
buffer of 3 vectors triggers the overflow trim, after which the buffer
holds the 2 most recent vectors — `⌈3/2⌉`, not `⌊3/2⌋ = 3/2 = 1` as the
claim states (Python's `training_data[-m//2:]` keeps the last `⌈m/2⌉`
entries, because unary minus binds tighter than `//`). -/
theorem add_to_training_data_trim_not_floor :
    add_to_training_data 3 ["cpu_current"] 1 [[1], [2], [3]] [("cpu_current", 4)]
      = [[3], [4]] ∧
    (add_to_training_data 3 ["cpu_current"] 1 [[1], [2], [3]] [("cpu_current", 4)]).length
      ≠ 3 / 2 := by
  exact ⟨rfl, by decide⟩

/-- C6 amended: for a positive capacity, the buffer length never exceeds
`max_training_samples` after an append (and hence after any foldl-sequence
of appends from a within-capacity start); an append to a full buffer
triggers the overflow trim, after which the buffer holds exactly
`⌈max_training_samples/2⌉ = (max_training_samples+1)/2` entries (equal to
`⌊max_training_samples/2⌋` for even capacities such as the configured
default 500), and those entries are a suffix — the most recent — of the
appended buffer. -/
theorem add_to_training_data_bounds (max_training_samples : ℕ)
    (enabled_features : List String) (feature_limit : ℕ)
    (hpos : 1 ≤ max_training_samples) :
    (∀ (td : List (List ℚ)) (fs : Features), td.length ≤ max_training_samples →
      (add_to_training_data max_training_samples enabled_features feature_limit td fs).length
        ≤ max_training_samples) ∧
    (∀ (td : List (List ℚ)) (fs : Features), td.length = max_training_samples →
      (add_to_training_data max_training_samples enabled_features feature_limit td fs).length
        = (max_training_samples + 1) / 2 ∧
      add_to_training_data max_training_samples enabled_features feature_limit td fs
        <:+ td ++ [feature_vector enabled_features feature_limit fs]) ∧
    (∀ (recs : List Features) (td : List (List ℚ)), td.length ≤ max_training_samples →
      (recs.foldl (add_to_training_data max_training_samples enabled_features feature_limit)
          td).length ≤ max_training_samples) := by
  have step : ∀ (td : List (List ℚ)) (fs : Features), td.length ≤ max_training_samples →
      (add_to_training_data max_training_samples enabled_features feature_limit td fs).length
        ≤ max_training_samples := by
    intro td fs h
    have hl : (td ++ [feature_vector enabled_features feature_limit fs]).length
        = td.length + 1 := by simp
    simp only [add_to_training_data]
    split_ifs with h1 h2
    · omega
    · rw [List.length_drop]; omega
    · omega
  refine ⟨step, ?_, ?_⟩
  · intro td fs h
    have hl : (td ++ [feature_vector enabled_features feature_limit fs]).length
        = td.length + 1 := by simp
    constructor
    · simp only [add_to_training_data]
      split_ifs with h1 h2
      · omega
      · rw [List.length_drop]; omega
      · omega
    · simp only [add_to_training_data]
      split_ifs with h1 h2
      · exact List.suffix_refl _
      · exact List.drop_suffix _ _
      · exact List.suffix_refl _
  · intro recs
    induction recs with
    | nil => intro td h; simpa using h
    | cons r rs ih => intro td h; exact ih _ (step td r h)

/-- Witness for `add_to_training_data_bounds`: capacity 3, full buffer of
3 vectors, one more append. -/
theorem add_to_training_data_bounds_witness :
    1 ≤ 3 ∧
    (add_to_training_data 3 ["cpu_current"] 1 [[0], [0], [0]] [("cpu_current", 4)]).length
      = (3 + 1) / 2 :=
  ⟨by decide,
   ((add_to_training_data_bounds 3 ["cpu_current"] 1 (by decide)).2.1
     [[0], [0], [0]] [("cpu_current", 4)] (by decide)).1⟩

/- ======================== C7 ======================== -/

/-- C7: `OptimizedAnomalyDetector._train_model` called with fewer than
`min_samples` buffered samples returns false and performs no state change
at all: model, scaler, `is_trained` flag and training buffer are exactly
the pre-call state.  (`AnomalyDetector.train_model` starts with the
identical `len(data) < min_samples` early return.) -/
theorem train_model_insufficient (min_samples : ℕ) (s : DetectorState)
    (h : s.training_data.length < min_samples) :
    train_model min_samples s = (false, s) := by
  simp [train_model, h]

/-- Witness for `train_model_insufficient`: 10 buffered samples with
`min_samples = 50` (the configured default). -/
theorem train_model_insufficient_witness :
    (DetectorState.mk none none false (List.replicate 10 [0])).training_data.length < 50 ∧
    train_model 50 (DetectorState.mk none none false (List.replicate 10 [0]))
      = (false, DetectorState.mk none none false (List.replicate 10 [0])) :=
  ⟨by decide, train_model_insufficient 50 _ (by decide)⟩

/- ======================== C8 ======================== -/

/-- C8: with `min_alert_interval = 300` seconds, an alert of the level
determined for the score is emitted at t = 0 and stamps that level's
cooldown entry; a second attempt at t = 100 is suppressed with literally
no state change; an attempt at t = 301 is allowed and re-stamps that
level's entry with 301; and cooldown entries of every other level are
never modified by any of the three operations. -/
theorem send_alert_cooldown_per_level (risk_score : ℚ) (features : Features)
    (st0 : AlertState)
    (h0 : is_in_cooldown 300 0 st0 (determine_risk_level risk_score) = false) :
    (send_alert 300 0 risk_score features st0).1.isSome = true ∧
    ((send_alert 300 0 risk_score features st0).2).cooldown (determine_risk_level risk_score)
      = some 0 ∧
    send_alert 300 100 risk_score features (send_alert 300 0 risk_score features st0).2
      = (none, (send_alert 300 0 risk_score features st0).2) ∧
    (send_alert 300 301 risk_score features
        (send_alert 300 0 risk_score features st0).2).1.isSome = true ∧
    ((send_alert 300 301 risk_score features
        (send_alert 300 0 risk_score features st0).2).2).cooldown
        (determine_risk_level risk_score) = some 301 ∧
    (∀ l, l ≠ determine_risk_level risk_score →
      ((send_alert 300 0 risk_score features st0).2).cooldown l = st0.cooldown l ∧
      ((send_alert 300 301 risk_score features
          (send_alert 300 0 risk_score features st0).2).2).cooldown l = st0.cooldown l) := by
  set lvl := determine_risk_level risk_score with hlvl
  have e0 : send_alert 300 0 risk_score features st0
      = (some ⟨lvl, risk_score, st0.incident_counter + 1⟩,
         AlertState.mk (fun l => if l = lvl then some 0 else st0.cooldown l)
           (st0.incident_counter + 1)) := by
    simp [send_alert, h0, update_cooldown]
  have hin100 : is_in_cooldown 300 100
      (AlertState.mk (fun l => if l = lvl then some 0 else st0.cooldown l)
        (st0.incident_counter + 1)) lvl = true := by
    simp [is_in_cooldown]
    norm_num
  have hin301 : is_in_cooldown 300 301
      (AlertState.mk (fun l => if l = lvl then some 0 else st0.cooldown l)
        (st0.incident_counter + 1)) lvl = false := by
    simp [is_in_cooldown]
    norm_num
  refine ⟨?_, ?_, ?_, ?_, ?_, ?_⟩
  · rw [e0]; rfl
  · rw [e0]; simp
  · rw [e0]; simp [send_alert, hin100]
  · rw [e0]; simp [send_alert, hin301]
  · rw [e0]; simp [send_alert, hin301, update_cooldown]
  · intro l hne
    rw [e0]
    refine ⟨by simp [hne], ?_⟩
    simp [send_alert, hin301, update_cooldown, hne]

/-- Witness for `send_alert_cooldown_per_level`: score 80 (level HIGH) from
the initial state with an empty cooldown table. -/
theorem send_alert_cooldown_per_level_witness :
    is_in_cooldown 300 0 (AlertState.mk (fun _ => none) 0) (determine_risk_level 80) = false ∧
    (send_alert 300 0 80 [] (AlertState.mk (fun _ => none) 0)).1.isSome = true ∧
    send_alert 300 100 80 []
        (send_alert 300 0 80 [] (AlertState.mk (fun _ => none) 0)).2
      = (none, (send_alert 300 0 80 [] (AlertState.mk (fun _ => none) 0)).2) ∧
    (send_alert 300 301 80 []
        (send_alert 300 0 80 [] (AlertState.mk (fun _ => none) 0)).2).1.isSome = true :=
  ⟨rfl,
   ((send_alert_cooldown_per_level 80 [] (AlertState.mk (fun _ => none) 0) rfl)).1,
   ((send_alert_cooldown_per_level 80 [] (AlertState.mk (fun _ => none) 0) rfl)).2.2.1,
   ((send_alert_cooldown_per_level 80 [] (AlertState.mk (fun _ => none) 0) rfl)).2.2.2.1⟩

/- ======================== C9 ======================== -/

/-- C9 counterexample: feature extraction does not always produce the full
fixed schema — on the non-empty metrics window `{'memory_utilization': [50]}`
(no CPU series) with an empty log window, the returned record has no
`cpu_current` binding at all, rather than carrying its documented default 0:
the per-field defaults are substituted only when the whole metrics dict is
empty. -/
theorem extract_features_field_absent :
    dmem (extract_features stdZero corrZero searchNone memOnlyMetrics []) "cpu_current"
      = false ∧
    dget (extract_features stdZero corrZero searchNone memOnlyMetrics []) "memory_current" 99
      = 50 := by
  exact ⟨rfl, rfl⟩

/-- C9 amended: extraction is total in the model, and on an empty metrics
dict and empty log window it returns exactly the documented default-valued
record (metric defaults, then log defaults, then the two combined fields,
all zero), for every instantiation of the abstract `np.std`, `np.corrcoef`
and regex-search parameters.  For non-empty metrics with a missing series,
the dependent fields are omitted (see the counterexample). -/
theorem extract_features_empty_inputs_default (std : List ℚ → ℚ)
    (corrcoef : List ℚ → List ℚ → ℚ) (search : String → String → Bool) :
    extract_features std corrcoef search emptyMetricsWindow []
      = default_metric_features ++ default_log_features
        ++ [("system_stress_score", 0), ("anomaly_likelihood", 0)] := by
  have h1 : extract_metric_features std emptyMetricsWindow = default_metric_features := rfl
  have h2 : extract_log_features search [] = default_log_features := rfl
  have h3 : extract_combined_features corrcoef emptyMetricsWindow []
      = [("system_stress_score", 0), ("anomaly_likelihood", 0)] := by
    simp [extract_combined_features, emptyMetricsWindow, dmem, dget, mean, List.lookup] <;>
      norm_num
  simp [extract_features, h1, h2, h3]
